import Mathlib

/-!
Shallow embedding of the `clinicaltrials_downloader` package
(`api.py` and `__init__.py`) and proofs about its paging, caching
and upload behaviour.

Records are opaque JSON objects in the source, so they are modelled by
an abstract carrier.  The HTTP provider is modelled as the list of JSON
responses it serves, in order; issuing a request consumes the next
response, and an exhausted provider stands for a transport failure.
Optional JSON keys are `Option` fields; filesystem contents are a
two-field world (the gzip cache artifact and the plain sample artifact).
-/

deriving instance DecidableEq for Except

namespace ClinicalTrials

/-- A raw study: an opaque dictionary in the source, abstracted to an
identifier. -/
abbrev RawStudy := Nat

/-- MAXIMUM_PAGE_SIZE: the maximum page size allowed by the API. -/
def MAXIMUM_PAGE_SIZE : Int := 1000

/-- N_SAMPLE_ROWS: the number of studies saved in the sample file. -/
def N_SAMPLE_ROWS : Nat := 5

/-- DEFAULT_FIELDS from api.py (the two names not commented out). -/
def DEFAULT_FIELDS : List String := ["NCTId", "BriefTitle"]

/-- One JSON page response.  Keys the server may omit are `Option`;
a `none` models a missing key, whose lookup raises `KeyError`. -/
structure Resp where
  totalCount : Option Int
  studies : Option (List RawStudy)
  nextPageToken : Option String
  deriving DecidableEq

/-- The query parameters of one HTTP GET against the studies endpoint. -/
structure Req where
  pageSize : Int
  fields : Option String
  countTotal : Option String
  pageToken : Option String
  deriving DecidableEq

/-- The `parameters` dict built at the top of `iterate_download_studies`:
the page size plus the optional `fields` entry, reused by every request. -/
structure BaseParams where
  pageSize : Int
  fields : Option String
  deriving DecidableEq

/-- The page-size clamping and `fields` handling at the top of
`iterate_download_studies`: a `None` page size defaults to the maximum,
an oversized one is clamped, and a non-`None` `fields` argument stores
the comma join of `DEFAULT_FIELDS` (as the source does, ignoring the
argument's own entries). -/
def effectiveBase (page_size : Option Int) (fields : Option (List String)) :
    BaseParams :=
  let ps0 : Int :=
    match page_size with
    | none => MAXIMUM_PAGE_SIZE
    | some p => p
  let ps : Int := if MAXIMUM_PAGE_SIZE < ps0 then MAXIMUM_PAGE_SIZE else ps0
  { pageSize := ps,
    fields :=
      match fields with
      | none => none
      | some _ => some (String.intercalate "," DEFAULT_FIELDS) }

/-- The first request: `{**parameters, "countTotal": "true"}`. -/
def firstRequest (base : BaseParams) : Req :=
  { pageSize := base.pageSize, fields := base.fields,
    countTotal := some "true", pageToken := none }

/-- A follow-up request: `{**parameters, "pageToken": next_token}`. -/
def pageRequest (base : BaseParams) (tok : String) : Req :=
  { pageSize := base.pageSize, fields := base.fields,
    countTotal := none, pageToken := some tok }

/-- What can abort a fetch session: a transport failure of `requests.get`,
or a `KeyError` on a missing JSON key. -/
inductive FetchErr where
  | network
  | keyError (key : String)
  deriving DecidableEq

/-- The `while next_token := res.get("nextPageToken")` loop of
`iterate_download_studies`.  `curTok` is the token of the response
just handled (`none` or `""` is falsy and ends the loop); `rest` is
what the provider still serves.  Returns the records yielded by the
loop together with the requests it issued. -/
def loopPages (base : BaseParams) :
    Option String → List Resp → Except FetchErr (List RawStudy) × List Req
  | none, _ => (.ok [], [])
  | some tok, rest =>
    if tok = "" then (.ok [], [])
    else
      match rest with
      | [] => (.error .network, [pageRequest base tok])
      | r :: rs =>
        match r.studies with
        | none => (.error (.keyError "studies"), [pageRequest base tok])
        | some studies =>
          let step := loopPages base r.nextPageToken rs
          (Except.map (fun more => studies ++ more) step.1,
            pageRequest base tok :: step.2)

/-- `iterate_download_studies(page_size=..., fields=...)` run against a
provider serving `responses` in order, driven to completion.  Returns
the records the generator yields (or the error that aborts it) and the
requests it issued. -/
def iterate_download_studies (page_size : Option Int)
    (fields : Option (List String)) (responses : List Resp) :
    Except FetchErr (List RawStudy) × List Req :=
  let base := effectiveBase page_size fields
  match responses with
  | [] => (.error .network, [firstRequest base])
  | r :: rest =>
    match r.totalCount with
    | none => (.error (.keyError "totalCount"), [firstRequest base])
    | some _ =>
      match r.studies with
      | none => (.error (.keyError "studies"), [firstRequest base])
      | some studies =>
        let step := loopPages base r.nextPageToken rest
        (Except.map (fun more => studies ++ more) step.1,
          firstRequest base :: step.2)

/-- A file's bytes, tagged by how they were produced: gzip-compressed
JSON or plain JSON.  `json.load` through `gzip.open` recovers a list
only from the former. -/
inductive Blob where
  | gzJson (data : List RawStudy)
  | plainJson (data : List RawStudy)
  deriving DecidableEq

/-- Reading a cache artifact: `gzip.open` + `json.load`.  A blob that is
not gzipped JSON fails. -/
def gzipJsonLoad : Blob → Except String (List RawStudy)
  | .gzJson data => .ok data
  | .plainJson _ => .error "BadGzipFile"

/-- The filesystem as `get_studies` sees it: the cache artifact at PATH
and the sample artifact at PATH_SAMPLE (`none` = the file is absent). -/
structure World where
  cacheFile : Option Blob
  sampleFile : Option Blob
  deriving DecidableEq

/-- What can abort `get_studies`: a fetch failure, or an unreadable
cache artifact. -/
inductive GetErr where
  | fetch (e : FetchErr)
  | cacheRead (msg : String)
  deriving DecidableEq

/-- `get_studies(force=...)` against provider `responses` and filesystem
`w`: serve from the cache when it exists and `force` is false, else
drive the fetcher at maximum page size to exhaustion, then write the
sample and the cache.  Returns the result, the filesystem afterwards,
and the requests issued. -/
def get_studies (force : Bool) (responses : List Resp) (w : World) :
    Except GetErr (List RawStudy) × World × List Req :=
  match w.cacheFile, force with
  | some blob, false =>
    match gzipJsonLoad blob with
    | .ok rv => (.ok rv, w, [])
    | .error msg => (.error (.cacheRead msg), w, [])
  | none, _ | some _, true =>
    let step := iterate_download_studies (some MAXIMUM_PAGE_SIZE) none responses
    match step.1 with
    | .error e => (.error (.fetch e), w, step.2)
    | .ok studies =>
      (.ok studies,
        { cacheFile := some (.gzJson studies),
          sampleFile := some (.plainJson (studies.take N_SAMPLE_ROWS)) },
        step.2)

/-- What `upload_zenodo` can raise: an error out of the forced refresh,
or the unconditional `NotImplementedError` after it. -/
inductive UploadErr where
  | get (e : GetErr)
  | notImplemented
  deriving DecidableEq

/-- `upload_zenodo`: force a full refresh via `get_studies(force=True)`,
then raise `NotImplementedError`. -/
def upload_zenodo (responses : List Resp) (w : World) :
    Except UploadErr Unit × World × List Req :=
  let step := get_studies true responses w
  match step.1 with
  | .error e => (.error (.get e), step.2.1, step.2.2)
  | .ok _ => (.error .notImplemented, step.2.1, step.2.2)

/-- The module-level names bound in `clinicaltrials_downloader.api`, in
definition order: imports, then module constants and functions. -/
def apiModuleNames : List String :=
  ["annotations", "gzip", "json", "logging", "time", "Iterable",
   "TYPE_CHECKING", "Any", "TypeAlias", "cast", "pystow", "requests",
   "tqdm", "__all__", "logger", "DEFAULT_FIELDS", "SLIM_FIELDS",
   "STUDIES_ENDPOINT_URL", "MODULE", "PATH", "PATH_SAMPLE",
   "MAXIMUM_PAGE_SIZE", "N_SAMPLE_ROWS", "RawStudy", "get_studies",
   "iterate_download_studies", "upload_zenodo"]

/-- The names `__init__.py` imports with `from .api import hello, square`. -/
def initModuleImports : List String := ["hello", "square"]

/-- Importing the package top level: `from .api import hello, square`
raises `ImportError` naming the first name `api` does not define;
otherwise the import succeeds. -/
def importPackage : Except String Unit :=
  match initModuleImports.find? (fun n => !(apiModuleNames.contains n)) with
  | some n => .error n
  | none => .ok ()

/-- The continuation token carried by the first of a list of
(token, page) pairs, if any. -/
def headTok : List (String × List RawStudy) → Option String
  | [] => none
  | (t, _) :: _ => some t

/-- The follow-up responses of a simulated provider: the response for
pair `(t, p)` serves page `p` and carries the token of the next pair
(the last response carries none). -/
def mkChain : List (String × List RawStudy) → List Resp
  | [] => []
  | (_, p) :: rest =>
    { totalCount := none, studies := some p, nextPageToken := headTok rest }
      :: mkChain rest

/-- A simulated provider with a first page and follow-up (token, page)
pairs: exactly the responses before the last one carry a token. -/
def mkProvider (total : Int) (firstPage : List RawStudy)
    (pairs : List (String × List RawStudy)) : List Resp :=
  { totalCount := some total, studies := some firstPage,
    nextPageToken := headTok pairs } :: mkChain pairs

/-- The continuation token carried by the first of a list of (token,
page) pairs, or the fallback token `d` when the list is empty. -/
def headTokD (pairs : List (String × List RawStudy)) (d : Option String) :
    Option String :=
  match pairs with
  | [] => d
  | (t, _) :: _ => some t

/-- Like `mkChain`, but the last response of the chain carries the
token `d` instead of none, so the chain points at one further
response. -/
def mkChainTo (d : Option String) : List (String × List RawStudy) → List Resp
  | [] => []
  | (_, p) :: rest =>
    { totalCount := none, studies := some p, nextPageToken := headTokD rest d }
      :: mkChainTo d rest

/-- Running the loop over a simulated chain: every (token, page) pair is
fetched with its token, its records are yielded in order, and responses
after the tokenless last one are never requested. -/
theorem loopPages_chain (base : BaseParams) (pairs : List (String × List RawStudy))
    (hnz : ∀ x ∈ pairs, x.1 ≠ "") (extra : List Resp) :
    loopPages base (headTok pairs) (mkChain pairs ++ extra)
      = (.ok (pairs.map Prod.snd).flatten,
         pairs.map (fun x => pageRequest base x.1)) := by
  induction pairs with
  | nil => simp [headTok, mkChain, loopPages]
  | cons hd tl ih =>
    obtain ⟨t, p⟩ := hd
    have ht : t ≠ "" := hnz (t, p) (List.mem_cons_self _ _)
    have ih2 := ih (fun x hx => hnz x (List.mem_cons_of_mem _ hx))
    have hh : headTok ((t, p) :: tl) = some t := rfl
    simp [hh, mkChain, loopPages, ht, ih2, Except.map]

/-- C1: for a simulated provider with K pages where exactly the first
K-1 responses carry a nextPageToken, `iterate_download_studies` yields
exactly the concatenation of the pages in page order (hence sum(s1..sK)
records), issues exactly K requests, and terminates at the first
tokenless response (responses past it are never requested). -/
theorem iterate_download_studies_paging (page_size : Option Int)
    (fields : Option (List String)) (total : Int) (firstPage : List RawStudy)
    (pairs : List (String × List RawStudy)) (hnz : ∀ x ∈ pairs, x.1 ≠ "")
    (extra : List Resp) :
    iterate_download_studies page_size fields (mkProvider total firstPage pairs ++ extra)
      = (.ok (firstPage ++ (pairs.map Prod.snd).flatten),
         firstRequest (effectiveBase page_size fields)
           :: pairs.map (fun x => pageRequest (effectiveBase page_size fields) x.1)) ∧
    (iterate_download_studies page_size fields
        (mkProvider total firstPage pairs ++ extra)).2.length
      = pairs.length + 1 ∧
    (firstPage ++ (pairs.map Prod.snd).flatten).length
      = firstPage.length + ((pairs.map Prod.snd).map List.length).sum := by
  have h := loopPages_chain (effectiveBase page_size fields) pairs hnz extra
  refine ⟨?_, ?_, ?_⟩
  · simp [iterate_download_studies, mkProvider, h, Except.map]
  · simp [iterate_download_studies, mkProvider, h, Except.map]
  · simp [List.length_flatten]

/-- A closed instance of the paging theorem: two pages of sizes 3 and 2
linked by one token yield five records over two requests. -/
theorem iterate_download_studies_paging_witness :
    iterate_download_studies none none (mkProvider 5 [1, 2, 3] [("tok1", [4, 5])] ++ [])
      = (.ok [1, 2, 3, 4, 5],
         [firstRequest (effectiveBase none none),
          pageRequest (effectiveBase none none) "tok1"]) :=
  (iterate_download_studies_paging none none 5 [1, 2, 3] [("tok1", [4, 5])]
    (by decide) []).1

/-- Every request the token loop issues omits countTotal, reuses the base
parameters, and carries as pageToken the nextPageToken of the response
just handled (position i's token is entry i of the token sequence). -/
theorem loopPages_req_spec (base : BaseParams) (rest : List Resp) :
    ∀ (curTok : Option String) (i : Nat) (req : Req),
      (loopPages base curTok rest).2[i]? = some req →
      req.countTotal = none ∧ req.pageSize = base.pageSize ∧
      req.fields = base.fields ∧
      req.pageToken = (curTok :: rest.map Resp.nextPageToken).getD i none := by
  induction rest with
  | nil =>
    rintro (_ | tok) i req h
    · simp [loopPages] at h
    · rcases eq_or_ne tok "" with he | he
      · simp [loopPages, he] at h
      · rcases i with _ | i
        · simp [loopPages, he] at h
          subst h
          simp [pageRequest, List.getD]
        · simp [loopPages, he] at h
  | cons r rs ih =>
    rintro (_ | tok) i req h
    · simp [loopPages] at h
    · rcases eq_or_ne tok "" with he | he
      · simp [loopPages, he] at h
      · rcases hs : r.studies with _ | studies
        · rcases i with _ | i
          · simp [loopPages, he, hs] at h
            subst h
            simp [pageRequest, List.getD]
          · simp [loopPages, he, hs] at h
        · rcases i with _ | i
          · simp [loopPages, he, hs] at h
            subst h
            simp [pageRequest, List.getD]
          · simp [loopPages, he, hs] at h
            have := ih r.nextPageToken i req h
            simpa [List.getD] using this

/-- C7: in every fetch session the first request carries countTotal set
to the string true and no pageToken, and every later request omits
countTotal and carries as pageToken the nextPageToken of the
immediately preceding response. -/
theorem iterate_requests_tokens (page_size : Option Int)
    (fields : Option (List String)) (responses : List Resp) :
    (∀ req, (iterate_download_studies page_size fields responses).2[0]? = some req →
        req.countTotal = some "true" ∧ req.pageToken = none) ∧
    (∀ (i : Nat) (req : Req),
        (iterate_download_studies page_size fields responses).2[i + 1]? = some req →
        req.countTotal = none ∧
        req.pageToken = (responses.map Resp.nextPageToken).getD i none) := by
  constructor
  · intro req h
    rcases responses with _ | ⟨r, rest⟩
    · simp [iterate_download_studies] at h
      subst h
      simp [firstRequest]
    · rcases ht : r.totalCount with _ | n
      · simp [iterate_download_studies, ht] at h
        subst h
        simp [firstRequest]
      · rcases hs : r.studies with _ | studies
        · simp [iterate_download_studies, ht, hs] at h
          subst h
          simp [firstRequest]
        · simp [iterate_download_studies, ht, hs] at h
          subst h
          simp [firstRequest]
  · intro i req h
    rcases responses with _ | ⟨r, rest⟩
    · simp [iterate_download_studies] at h
    · rcases ht : r.totalCount with _ | n
      · simp [iterate_download_studies, ht] at h
      · rcases hs : r.studies with _ | studies
        · simp [iterate_download_studies, ht, hs] at h
        · simp [iterate_download_studies, ht, hs] at h
          have h2 := loopPages_req_spec (effectiveBase page_size fields) rest
            r.nextPageToken i req h
          exact ⟨h2.1, by simpa [List.getD] using h2.2.2.2⟩

/-- A closed instance of the request-shape theorem: on a two-page
provider, the second request omits countTotal and carries the token of
the first response. -/
theorem iterate_requests_tokens_witness :
    (pageRequest (effectiveBase none none) "tok1").countTotal = none ∧
    (pageRequest (effectiveBase none none) "tok1").pageToken
      = ((mkProvider 5 [1, 2, 3] [("tok1", [4, 5])]).map Resp.nextPageToken).getD 0 none :=
  (iterate_requests_tokens none none (mkProvider 5 [1, 2, 3] [("tok1", [4, 5])])).2 0
    (pageRequest (effectiveBase none none) "tok1") (by decide)

/-- Every request the token loop issues reuses the base page size and
base fields entry. -/
theorem loopPages_mem_base (base : BaseParams) (rest : List Resp) :
    ∀ (curTok : Option String), ∀ req ∈ (loopPages base curTok rest).2,
      req.pageSize = base.pageSize ∧ req.fields = base.fields := by
  induction rest with
  | nil =>
    rintro (_ | tok) req h
    · simp [loopPages] at h
    · rcases eq_or_ne tok "" with he | he
      · simp [loopPages, he] at h
      · simp [loopPages, he] at h
        subst h
        simp [pageRequest]
  | cons r rs ih =>
    rintro (_ | tok) req h
    · simp [loopPages] at h
    · rcases eq_or_ne tok "" with he | he
      · simp [loopPages, he] at h
      · rcases hs : r.studies with _ | studies
        · simp [loopPages, he, hs] at h
          subst h
          simp [pageRequest]
        · simp [loopPages, he, hs] at h
          rcases h with h | h
          · subst h
            simp [pageRequest]
          · exact ih r.nextPageToken req h

/-- Every request a fetch session issues carries the effective base
page size and fields entry. -/
theorem iterate_mem_base (page_size : Option Int) (fields : Option (List String))
    (responses : List Resp) :
    ∀ req ∈ (iterate_download_studies page_size fields responses).2,
      req.pageSize = (effectiveBase page_size fields).pageSize ∧
      req.fields = (effectiveBase page_size fields).fields := by
  intro req h
  rcases responses with _ | ⟨r, rest⟩
  · simp [iterate_download_studies] at h
    subst h
    simp [firstRequest]
  · rcases ht : r.totalCount with _ | n
    · simp [iterate_download_studies, ht] at h
      subst h
      simp [firstRequest]
    · rcases hs : r.studies with _ | studies
      · simp [iterate_download_studies, ht, hs] at h
        subst h
        simp [firstRequest]
      · simp [iterate_download_studies, ht, hs] at h
        rcases h with h | h
        · subst h
          simp [firstRequest]
        · exact loopPages_mem_base (effectiveBase page_size fields) rest
            r.nextPageToken req h

/-- C4: a page size above the provider maximum is silently clamped to
the maximum: every request of the session carries pageSize 1000, and
the whole session behaves as if the maximum had been requested. -/
theorem iterate_clamps_page_size (P : Int) (hP : MAXIMUM_PAGE_SIZE < P)
    (fields : Option (List String)) (responses : List Resp) :
    (∀ req ∈ (iterate_download_studies (some P) fields responses).2,
        req.pageSize = MAXIMUM_PAGE_SIZE) ∧
    iterate_download_studies (some P) fields responses
      = iterate_download_studies (some MAXIMUM_PAGE_SIZE) fields responses := by
  have hbase : effectiveBase (some P) fields
      = effectiveBase (some MAXIMUM_PAGE_SIZE) fields := by
    simp [effectiveBase, hP]
  have hps : (effectiveBase (some P) fields).pageSize = MAXIMUM_PAGE_SIZE := by
    simp [effectiveBase, hP]
  constructor
  · intro req hreq
    rw [(iterate_mem_base (some P) fields responses req hreq).1, hps]
  · unfold iterate_download_studies
    rw [hbase]

/-- A closed instance of the clamping theorem: requesting page size 5000
sends pageSize 1000. -/
theorem iterate_clamps_page_size_witness :
    MAXIMUM_PAGE_SIZE < 5000 ∧
    ∀ req ∈ (iterate_download_studies (some 5000) none
        (mkProvider 1 [1] [])).2, req.pageSize = MAXIMUM_PAGE_SIZE :=
  ⟨by decide, (iterate_clamps_page_size 5000 (by decide) none (mkProvider 1 [1] [])).1⟩

/-- When the token loop returns records, every response it consumed
carried the studies key. -/
theorem loopPages_ok_studies (base : BaseParams) (rest : List Resp) :
    ∀ (curTok : Option String) (L : List RawStudy),
      (loopPages base curTok rest).1 = .ok L →
      ∀ r ∈ rest.take (loopPages base curTok rest).2.length, r.studies ≠ none := by
  induction rest with
  | nil =>
    rintro (_ | tok) L hok r hr
    · simp at hr
    · simp at hr
  | cons r0 rs ih =>
    rintro (_ | tok) L hok r hr
    · simp [loopPages] at hr
    · rcases eq_or_ne tok "" with he | he
      · simp [loopPages, he] at hr
      · rcases hs : r0.studies with _ | studies
        · simp [loopPages, he, hs] at hok
        · rcases hstep : (loopPages base r0.nextPageToken rs).1 with e | L2
          · simp [loopPages, he, hs, hstep, Except.map] at hok
          · have hlen : (loopPages base (some tok) (r0 :: rs)).2
                = pageRequest base tok :: (loopPages base r0.nextPageToken rs).2 := by
              simp [loopPages, he, hs]
            rw [hlen] at hr
            simp only [List.length_cons, List.take_succ_cons, List.mem_cons] at hr
            rcases hr with rfl | hr
            · simp [hs]
            · exact ih r0.nextPageToken L2 hstep r hr

/-- When the token loop reaches a response lacking the studies key —
after any number of well-formed tokened pages — it fails at once with
a KeyError on studies, and its request log ends at the request that
fetched the bad response: later responses are never requested. -/
theorem loopPages_chain_bad (base : BaseParams) (t : String) (ht : t ≠ "")
    (bad : Resp) (hbad : bad.studies = none) (extra : List Resp) :
    ∀ (pairs : List (String × List RawStudy)), (∀ x ∈ pairs, x.1 ≠ "") →
    loopPages base (headTokD pairs (some t))
        (mkChainTo (some t) pairs ++ bad :: extra)
      = (.error (.keyError "studies"),
         pairs.map (fun x => pageRequest base x.1) ++ [pageRequest base t]) := by
  intro pairs
  induction pairs with
  | nil =>
    intro _
    simp [headTokD, mkChainTo, loopPages, ht, hbad]
  | cons hd tl ih =>
    intro hnz
    obtain ⟨t0, p⟩ := hd
    have ht0 : t0 ≠ "" := hnz (t0, p) (List.mem_cons_self _ _)
    have ih2 := ih (fun x hx => hnz x (List.mem_cons_of_mem _ hx))
    have hh : headTokD ((t0, p) :: tl) (some t) = some t0 := rfl
    simp [hh, mkChainTo, loopPages, ht0, ih2, Except.map]

/-- C9: a response lacking an expected key aborts the fetch session with
a KeyError that propagates and stops iteration: a first response without
totalCount (or without studies) ends the session at once with that error
after the single request; a response without studies at any later
position — after any number of well-formed tokened pages — ends the
session with a KeyError on studies, the request log stopping at the
request that fetched it (responses past it are never requested); and a
session that returns records consumed only responses carrying the
studies key (no missing key is ever swallowed). -/
theorem iterate_missing_keys :
    (∀ (page_size : Option Int) (fields : Option (List String)) (r : Resp)
        (rest : List Resp), r.totalCount = none →
        iterate_download_studies page_size fields (r :: rest)
          = (.error (.keyError "totalCount"),
             [firstRequest (effectiveBase page_size fields)])) ∧
    (∀ (page_size : Option Int) (fields : Option (List String)) (r : Resp)
        (rest : List Resp) (n : Int), r.totalCount = some n → r.studies = none →
        iterate_download_studies page_size fields (r :: rest)
          = (.error (.keyError "studies"),
             [firstRequest (effectiveBase page_size fields)])) ∧
    (∀ (page_size : Option Int) (fields : Option (List String)) (total : Int)
        (firstPage : List RawStudy) (pairs : List (String × List RawStudy)),
        (∀ x ∈ pairs, x.1 ≠ "") → ∀ (t : String), t ≠ "" →
        ∀ (bad : Resp), bad.studies = none → ∀ (extra : List Resp),
        iterate_download_studies page_size fields
            ({ totalCount := some total, studies := some firstPage,
               nextPageToken := headTokD pairs (some t) }
              :: (mkChainTo (some t) pairs ++ bad :: extra))
          = (.error (.keyError "studies"),
             (firstRequest (effectiveBase page_size fields)
               :: pairs.map (fun x => pageRequest (effectiveBase page_size fields) x.1))
               ++ [pageRequest (effectiveBase page_size fields) t])) ∧
    (∀ (page_size : Option Int) (fields : Option (List String))
        (responses : List Resp) (L : List RawStudy),
        (iterate_download_studies page_size fields responses).1 = .ok L →
        ∀ r ∈ responses.take
            (iterate_download_studies page_size fields responses).2.length,
          r.studies ≠ none) := by
  refine ⟨?_, ?_, ?_, ?_⟩
  · intro ps fs r rest ht
    simp [iterate_download_studies, ht]
  · intro ps fs r rest n ht hs
    simp [iterate_download_studies, ht, hs]
  · intro ps fs total firstPage pairs hnz t ht bad hbad extra
    have h := loopPages_chain_bad (effectiveBase ps fs) t ht bad hbad extra pairs hnz
    simp [iterate_download_studies, h, Except.map]
  · intro ps fs responses L hok r hr
    rcases responses with _ | ⟨r0, rest⟩
    · simp [iterate_download_studies] at hok
    · rcases ht : r0.totalCount with _ | n
      · simp [iterate_download_studies, ht] at hok
      · rcases hs : r0.studies with _ | studies
        · simp [iterate_download_studies, ht, hs] at hok
        · rcases hstep : (loopPages (effectiveBase ps fs) r0.nextPageToken rest).1
            with e | L2
          · simp [iterate_download_studies, ht, hs, hstep, Except.map] at hok
          · have hreqs : (iterate_download_studies ps fs (r0 :: rest)).2
                = firstRequest (effectiveBase ps fs)
                  :: (loopPages (effectiveBase ps fs) r0.nextPageToken rest).2 := by
              simp [iterate_download_studies, ht, hs]
            rw [hreqs] at hr
            simp only [List.length_cons, List.take_succ_cons, List.mem_cons] at hr
            rcases hr with rfl | hr
            · simp [hs]
            · exact loopPages_ok_studies (effectiveBase ps fs) rest
                r0.nextPageToken L2 hstep r hr

/-- A closed instance of the missing-key theorem: a third response
without the studies key (after a good first page and one good tokened
page) fails the session with a KeyError on studies after exactly three
requests, the fourth response never being requested. -/
theorem iterate_missing_keys_witness :
    iterate_download_studies none none
        ({ totalCount := some 12, studies := some [1, 2, 3],
           nextPageToken := headTokD [("tok1", [4, 5])] (some "tok2") }
          :: (mkChainTo (some "tok2") [("tok1", [4, 5])]
              ++ { totalCount := none, studies := none, nextPageToken := none }
                :: [{ totalCount := none, studies := some [9], nextPageToken := none }]))
      = (.error (.keyError "studies"),
         (firstRequest (effectiveBase none none)
           :: [("tok1", [4, 5])].map
               (fun x => pageRequest (effectiveBase none none) x.1))
           ++ [pageRequest (effectiveBase none none) "tok2"]) :=
  iterate_missing_keys.2.2.1 none none 12 [1, 2, 3] [("tok1", [4, 5])] (by decide)
    "tok2" (by decide) { totalCount := none, studies := none, nextPageToken := none }
    rfl [{ totalCount := none, studies := some [9], nextPageToken := none }]

/-- C2: with an existing readable cache artifact and force false,
`get_studies` returns the decoded cache contents, issues no request and
writes nothing; a second cached call returns the identical list against
the unchanged filesystem. -/
theorem get_studies_cached (w : World) (blob : Blob) (rv : List RawStudy)
    (responses responses2 : List Resp)
    (hcache : w.cacheFile = some blob) (hload : gzipJsonLoad blob = .ok rv) :
    get_studies false responses w = (.ok rv, w, []) ∧
    get_studies false responses2 (get_studies false responses w).2.1
      = (.ok rv, w, []) := by
  have h1 : get_studies false responses w = (.ok rv, w, []) := by
    simp [get_studies, hcache, hload]
  refine ⟨h1, ?_⟩
  rw [h1]
  simp [get_studies, hcache, hload]

/-- A closed instance of the cached-read theorem: a two-record cache is
served unchanged with no request. -/
theorem get_studies_cached_witness :
    get_studies false [] { cacheFile := some (.gzJson [1, 2]), sampleFile := none }
      = (.ok [1, 2],
         { cacheFile := some (.gzJson [1, 2]), sampleFile := none }, []) :=
  (get_studies_cached { cacheFile := some (.gzJson [1, 2]), sampleFile := none }
    (.gzJson [1, 2]) [1, 2] [] [] rfl rfl).1

/-- C3: a refresh (forced, or with no cache artifact) whose fetch fails
propagates the error and leaves the filesystem exactly as it was:
neither artifact is written or modified. -/
theorem get_studies_failed_refresh (force : Bool) (responses : List Resp)
    (w : World) (e : FetchErr)
    (hrefresh : w.cacheFile = none ∨ force = true)
    (herr : (iterate_download_studies (some MAXIMUM_PAGE_SIZE) none responses).1
      = .error e) :
    get_studies force responses w
      = (.error (.fetch e), w,
         (iterate_download_studies (some MAXIMUM_PAGE_SIZE) none responses).2) := by
  rcases hrefresh with hc | hf
  · simp [get_studies, hc, herr]
  · subst hf
    rcases hc : w.cacheFile with _ | blob
    · simp [get_studies, hc, herr]
    · simp [get_studies, hc, herr]

/-- A closed instance of the failed-refresh theorem: a transport failure
during a forced refresh leaves the previous cache artifact in place. -/
theorem get_studies_failed_refresh_witness :
    get_studies true [] { cacheFile := some (.gzJson [9]), sampleFile := none }
      = (.error (.fetch .network),
         { cacheFile := some (.gzJson [9]), sampleFile := none },
         (iterate_download_studies (some MAXIMUM_PAGE_SIZE) none []).2) :=
  get_studies_failed_refresh true [] { cacheFile := some (.gzJson [9]), sampleFile := none }
    .network (Or.inr rfl) rfl

/-- C6: a successful refresh producing list L writes as sample artifact
exactly the first min(N_SAMPLE_ROWS, length L) records of L, writes L as
the cache artifact, and the sample is a prefix of the cached list. -/
theorem get_studies_refresh_sample (force : Bool) (responses : List Resp)
    (w : World) (L : List RawStudy)
    (hrefresh : w.cacheFile = none ∨ force = true)
    (hok : (iterate_download_studies (some MAXIMUM_PAGE_SIZE) none responses).1
      = .ok L) :
    (get_studies force responses w).1 = .ok L ∧
    (get_studies force responses w).2.1.sampleFile
      = some (.plainJson (L.take N_SAMPLE_ROWS)) ∧
    (get_studies force responses w).2.1.cacheFile = some (.gzJson L) ∧
    (L.take N_SAMPLE_ROWS).length = min N_SAMPLE_ROWS L.length ∧
    ∃ t, L.take N_SAMPLE_ROWS ++ t = L := by
  have hmain : get_studies force responses w
      = (.ok L,
         { cacheFile := some (.gzJson L),
           sampleFile := some (.plainJson (L.take N_SAMPLE_ROWS)) },
         (iterate_download_studies (some MAXIMUM_PAGE_SIZE) none responses).2) := by
    rcases hrefresh with hc | hf
    · simp [get_studies, hc, hok]
    · subst hf
      rcases hc : w.cacheFile with _ | blob
      · simp [get_studies, hc, hok]
      · simp [get_studies, hc, hok]
  rw [hmain]
  exact ⟨rfl, rfl, rfl, by simp,
    ⟨L.drop N_SAMPLE_ROWS, List.take_append_drop _ _⟩⟩

/-- A closed instance of the sample theorem: a seven-record refresh
writes a five-record sample that is a prefix of the cache. -/
theorem get_studies_refresh_sample_witness :
    (get_studies true (mkProvider 7 [1, 2, 3, 4, 5, 6, 7] [])
        { cacheFile := none, sampleFile := none }).2.1.sampleFile
      = some (.plainJson ([1, 2, 3, 4, 5, 6, 7].take N_SAMPLE_ROWS)) :=
  (get_studies_refresh_sample true (mkProvider 7 [1, 2, 3, 4, 5, 6, 7] [])
    { cacheFile := none, sampleFile := none } [1, 2, 3, 4, 5, 6, 7]
    (Or.inr rfl) (by decide)).2.1

/-- A fetch session always issues at least one request: the first
request is sent before any response is inspected. -/
theorem iterate_requests_ne_nil (page_size : Option Int)
    (fields : Option (List String)) (responses : List Resp) :
    (iterate_download_studies page_size fields responses).2 ≠ [] := by
  rcases responses with _ | ⟨r, rest⟩
  · simp [iterate_download_studies]
  · rcases ht : r.totalCount with _ | n
    · simp [iterate_download_studies, ht]
    · rcases hs : r.studies with _ | studies
      · simp [iterate_download_studies, ht, hs]
      · simp [iterate_download_studies, ht, hs]

/-- C8: `upload_zenodo` first forces a full refresh via
`get_studies(force=True)` (its filesystem effect and request log are
exactly the forced refresh's, and at least one request is issued) and
never completes an upload: when the refresh succeeds it raises
NotImplementedError, and it never returns success. -/
theorem upload_zenodo_never_uploads (responses : List Resp) (w : World) :
    (upload_zenodo responses w).1 ≠ .ok () ∧
    (∀ L, (get_studies true responses w).1 = .ok L →
        (upload_zenodo responses w).1 = .error .notImplemented) ∧
    (upload_zenodo responses w).2 = (get_studies true responses w).2 ∧
    (upload_zenodo responses w).2.2 ≠ [] := by
  have hreqs : (get_studies true responses w).2.2
      = (iterate_download_studies (some MAXIMUM_PAGE_SIZE) none responses).2 := by
    rcases hc : w.cacheFile with _ | blob <;>
      rcases hstep : (iterate_download_studies (some MAXIMUM_PAGE_SIZE) none
        responses).1 with e | L <;>
      simp [get_studies, hc, hstep]
  refine ⟨?_, ?_, ?_, ?_⟩
  · rcases hg : (get_studies true responses w).1 with e | L <;>
      simp [upload_zenodo, hg]
  · intro L hg
    simp [upload_zenodo, hg]
  · rcases hg : (get_studies true responses w).1 with e | L <;>
      simp [upload_zenodo, hg]
  · have hne := iterate_requests_ne_nil (some MAXIMUM_PAGE_SIZE) none responses
    rw [← hreqs] at hne
    rcases hg : (get_studies true responses w).1 with e | L <;>
      simpa [upload_zenodo, hg] using hne

/-- A closed instance of the upload theorem: on a one-page provider the
forced refresh succeeds and upload still fails with
NotImplementedError. -/
theorem upload_zenodo_never_uploads_witness :
    (upload_zenodo (mkProvider 1 [1] [])
        { cacheFile := none, sampleFile := none }).1 = .error .notImplemented :=
  (upload_zenodo_never_uploads (mkProvider 1 [1] [])
    { cacheFile := none, sampleFile := none }).2.1 [1] (by decide)

/-- C5 evidence: the source joins DEFAULT_FIELDS whenever a fields list
is passed, ignoring the list itself: with fields equal to the single
name Condition, every request carries the comma join of DEFAULT_FIELDS
instead, which differs from the comma join of the argument.  (With
fields None, no fields parameter is sent, as the claim says.) -/
theorem iterate_fields_ignores_argument :
    (∀ req ∈ (iterate_download_studies none (some ["Condition"])
        (mkProvider 1 [1] [])).2, req.fields = some "NCTId,BriefTitle") ∧
    some "NCTId,BriefTitle" ≠ some (String.intercalate "," ["Condition"]) ∧
    (∀ req ∈ (iterate_download_studies none none (mkProvider 1 [1] [])).2,
        req.fields = none) := by
  refine ⟨by decide, by decide, by decide⟩

/-- C10: importing the package top level always raises ImportError: it
asks the api module for hello (and square), which the api module does
not define, although the public API names are all present there. -/
theorem importPackage_fails :
    importPackage = .error "hello" ∧
    ("get_studies" ∈ apiModuleNames ∧ "iterate_download_studies" ∈ apiModuleNames ∧
      "upload_zenodo" ∈ apiModuleNames) ∧
    "hello" ∉ apiModuleNames ∧ "square" ∉ apiModuleNames := by
  refine ⟨by decide, ⟨by decide, by decide, by decide⟩, by decide, by decide⟩

end ClinicalTrials
